import Mathlib

/-!
Verification of the statistical engine in `src/engine.py` (class `ExperimentEngine`,
methods `calculate_sample_size` and `analyze_results`).

Modelling conventions.

Python ints and floats that the engine manipulates directly are modelled as exact
rationals; every Python operation that can raise is made explicit in an
`Except PyErr` computation, so the `try/except Exception` block of
`analyze_results` becomes a total function into `Option`.

Results coming back from the scipy and statsmodels library calls are modelled as
`NpFloat`: either a finite rational or the IEEE quiet NaN value, because numpy
floating computations produce NaN silently (under warnings, not exceptions).

The four library entry points the engine calls, namely
`statsmodels.stats.proportion.proportions_ztest`,
`scipy.stats.ttest_ind_from_stats`,
`statsmodels.stats.proportion.proportion_effectsize` and
`NormalIndPower.solve_nobs_two_indep`, are third party code, not part of this
repository, so they are abstracted into a `StatsLib` record of functions.  The
facts about them that the theorems below need are collected in `StatsLib.Spec`,
each justified from the published behaviour of those libraries; see the doc
comment of each field.
-/

/-- Python exception values that the translated engine body can raise. -/
inductive PyErr where
  | keyError (k : String)
  | zeroDivisionError
  | nameError
  | valueError (msg : String)
deriving DecidableEq

/-- A numpy or Python float as handled by the engine: a finite value (floats are
exact rationals) or the quiet NaN produced by numpy on indeterminate forms such
as 0/0.  Infinite values never reach the engine code paths analysed here. -/
inductive NpFloat where
  | nan
  | fin (q : ℚ)
deriving DecidableEq

/-- The Python comparison `p_val < alpha`.  NaN compares false against
everything, which is exactly how the engine classifies a NaN p value. -/
def NpFloat.lt : NpFloat → NpFloat → Bool
  | .fin a, .fin b => decide (a < b)
  | _, _ => false

/-- Round to the nearest integer, ties to even, as Python round does. -/
def roundHalfEven (q : ℚ) : ℤ :=
  if q - ⌊q⌋ < 1/2 then ⌊q⌋
  else if 1/2 < q - ⌊q⌋ then ⌊q⌋ + 1
  else if ⌊q⌋ % 2 = 0 then ⌊q⌋ else ⌊q⌋ + 1

/-- The Python call `round(x, 4)` of `analyze_results`: round half to even at
four decimal places; `round` of NaN is NaN. -/
def NpFloat.round4 : NpFloat → NpFloat
  | .nan => .nan
  | .fin q => .fin ((roundHalfEven (q * 10000) : ℚ) / 10000)

/-- Python scalar true division, which raises ZeroDivisionError on a zero
denominator (unlike numpy array division, which only warns). -/
def pyDiv (a b : ℚ) : Except PyErr ℚ :=
  if b = 0 then .error .zeroDivisionError else .ok (a / b)

/-- Python truthiness of an optional numeric parameter, as used by the source
line `if not std_dev_control`: `None` is falsy and so is the number `0`. -/
def pyFalsy : Option ℚ → Bool
  | none => true
  | some q => decide (q = 0)

/-- The `**kwargs` dictionary passed to `analyze_results`. -/
abbrev Kwargs := List (String × ℚ)

/-- Python dictionary subscription `kwargs[k]`: KeyError when absent. -/
def Kwargs.get (kw : Kwargs) (k : String) : Except PyErr ℚ :=
  match kw.lookup k with
  | some v => .ok v
  | none => .error (.keyError k)

/-- The metric type tag for conversion rate, source literal. -/
def crTag : String := "cr"

/-- The metric type tag for earnings per click, source literal. -/
def epcTag : String := "epc"

/-- Source message of the power and alpha validation, engine line 35. -/
def msgPowerAlpha : String := "Power and alpha must be between 0 and 1."

/-- Source message for an unknown metric type during MDE defaulting, line 45. -/
def msgUnknownSmType : String := "Unknown sm_type"

/-- Source message of the missing standard deviation check, engine line 59. -/
def msgStdRequired : String := "std_dev_control is required for EPC calculations."

/-- Source message of the final metric type check, engine line 62. -/
def msgSmTypeMustBe : String := "sm_type must be cr or epc"

/-- The scipy and statsmodels entry points called by the engine, abstracted as
opaque float functions over exact rationals.  Argument order follows the call
sites in `src/engine.py`. -/
structure StatsLib where
  proportions_ztest : ℚ → ℚ → ℚ → ℚ → Except PyErr (NpFloat × NpFloat)
  ttest_ind_from_stats : ℚ → ℚ → ℚ → ℚ → ℚ → ℚ → Except PyErr (NpFloat × NpFloat)
  proportion_effectsize : ℚ → ℚ → Except PyErr ℚ
  solve_nobs_two_indep : ℚ → ℚ → ℚ → ℚ → Except PyErr ℚ

/-- Facts about the real libraries that the theorems rely on.

`pz_ok`: `proportions_ztest` computes with numpy arrays, where division by
zero and indeterminate forms produce warnings and NaN or infinity values, never
exceptions, so the call returns a (statistic, p value) pair for any numeric
input.

`tt_zerovar`: `scipy.stats.ttest_ind_from_stats` with `equal_var=False` forms
the Welch denominator `sqrt(std1^2/nobs1 + std2^2/nobs2)` inside
`np.errstate(divide=..., invalid=...)` suppression; with both standard
deviations zero the denominator is `0`, the statistic is `(mean1-mean2)/0`,
which for equal means is the indeterminate form `0/0`, i.e. NaN, the Welch
degrees of freedom NaN is replaced by 1 inside scipy, and the survival function
of a NaN statistic is NaN.  No exception is raised and the pair (NaN, NaN) is
returned.

`pes_eq_zero`: `proportion_effectsize(p, p)` computes
`2*arcsin(sqrt(p)) - 2*arcsin(sqrt(p))`, identical float subexpressions, hence
exactly `0`.

`pes_neg`: `proportion_effectsize(p1, p2) = 2*(arcsin(sqrt(p1)) -
arcsin(sqrt(p2)))` is negative when `p1 < p2`, because `arcsin` and `sqrt` are
increasing; note the engine calls it with `p1 = control` and
`p2 = control + mde_absolute`, so a positive MDE yields a negative effect size.

`solve_zero_effect`: `Power.solve_power` in statsmodels rejects a zero effect
size with a ValueError (it cannot detect an effect size of zero) before any
numeric solving starts.

`solve_pos`: for a positive effect size, alpha and power strictly inside (0,1)
and a positive group size ratio, the one sided normal power equation
`power = Phi(es * sqrt(n1*ratio/(1+ratio)) - z(1-alpha))` has a unique positive
root in `n1` and the statsmodels bracketing solver returns it.

`solve_antitone`: that root is antitone in the effect size, since the power is
increasing in `es * sqrt(n1)`.

For a strictly negative effect size no field constrains the solver: the one
sided power then stays strictly below alpha for every sample size, the
bracketing search finds no sign change, and statsmodels falls back to an
unconverged `fsolve` whose value is returned with only a ConvergenceWarning, so
the returned float is not meaningful and in particular not guaranteed
positive. -/
structure StatsLib.Spec (L : StatsLib) : Prop where
  pz_ok : ∀ cv cc nv nc : ℚ, ∃ s p, L.proportions_ztest cv cc nv nc = .ok (s, p)
  tt_zerovar : ∀ vm vn cm cn : ℚ, vm = cm → 1 ≤ vn → 1 ≤ cn →
    L.ttest_ind_from_stats vm 0 vn cm 0 cn = .ok (.nan, .nan)
  pes_eq_zero : ∀ p1 : ℚ, 0 < p1 → p1 < 1 → L.proportion_effectsize p1 p1 = .ok 0
  pes_neg : ∀ p1 p2 : ℚ, 0 < p1 → p1 < p2 → p2 < 1 →
    ∃ e, L.proportion_effectsize p1 p2 = .ok e ∧ e < 0
  solve_zero_effect : ∀ a pw rr : ℚ,
    ∃ msg, L.solve_nobs_two_indep 0 a pw rr = .error (.valueError msg)
  solve_pos : ∀ es a pw rr : ℚ, 0 < es → 0 < a → a < 1 → 0 < pw → pw < 1 → 0 < rr →
    ∃ n, L.solve_nobs_two_indep es a pw rr = .ok n ∧ 0 < n
  solve_antitone : ∀ es1 es2 a pw rr n1 n2 : ℚ, 0 < es1 → es1 ≤ es2 →
    L.solve_nobs_two_indep es1 a pw rr = .ok n1 →
    L.solve_nobs_two_indep es2 a pw rr = .ok n2 → n2 ≤ n1

/-- The dictionary returned by `calculate_sample_size` (both values are
produced by `int(np.ceil(...))`). -/
structure SampleSizeResult where
  control_sample_size : ℤ
  variant_sample_size_per_variant : ℤ
deriving DecidableEq

/-- Engine lines 41 to 45: default MDE assignment.  A provided value is kept
unvalidated; otherwise `mde_mapping = ('cr' to 0.05, 'epc' to 0.10)` is
consulted and an unknown metric type raises ValueError. -/
def resolveMde (sm_type : String) (mde_relative : Option ℚ) : Except PyErr ℚ :=
  match mde_relative with
  | some m => .ok m
  | none =>
    if sm_type = crTag then .ok (1/20)
    else if sm_type = epcTag then .ok (1/10)
    else .error (.valueError msgUnknownSmType)

/-- Engine lines 55 to 62: the metric specific effect size.  For `cr` the
library call `proportion_effectsize(sm_control, sm_control + mde_absolute)`;
for `epc` the falsy check on the standard deviation (so `None` and `0` both
raise) and then `mde_absolute / std_dev_control`; otherwise ValueError. -/
def effectSizeOf (L : StatsLib) (sm_type : String) (sm_control mde_absolute : ℚ)
    (std_dev_control : Option ℚ) : Except PyErr ℚ :=
  if sm_type = crTag then
    L.proportion_effectsize sm_control (sm_control + mde_absolute)
  else if sm_type = epcTag then
    if pyFalsy std_dev_control then .error (.valueError msgStdRequired)
    else pyDiv mde_absolute (std_dev_control.getD 0)
  else .error (.valueError msgSmTypeMustBe)

/-- The traffic ratio computed on engine lines 50 and 51, as a plain value:
`((1 - control_traffic_share) / num_variants) / control_traffic_share`. -/
def ratioOf (control_traffic_share : ℚ) (num_variants : ℤ) : ℚ :=
  ((1 - control_traffic_share) / (num_variants : ℚ)) / control_traffic_share

/-- `ExperimentEngine.calculate_sample_size`, engine lines 18 to 72, translated
statement by statement.  Divisions are Python scalar divisions and can raise
ZeroDivisionError; `raise ValueError` becomes `.error (.valueError _)`; the two
returned sizes are `int(np.ceil(n_control))` and
`int(np.ceil(n_control * ratio))`, i.e. exact ceilings. -/
def calculate_sample_size (L : StatsLib) (sm_type : String) (sm_control : ℚ)
    (std_dev_control : Option ℚ) (mde_relative : Option ℚ)
    (power alpha control_traffic_share : ℚ) (num_variants : ℤ) :
    Except PyErr SampleSizeResult :=
  if ¬ (0 < power ∧ power < 1 ∧ 0 < alpha ∧ alpha < 1) then
    .error (.valueError msgPowerAlpha)
  else
    match pyDiv alpha (num_variants : ℚ) with
    | .error e => .error e
    | .ok adjusted_alpha =>
      match resolveMde sm_type mde_relative with
      | .error e => .error e
      | .ok mde =>
        let mde_absolute := sm_control * mde
        match pyDiv (1 - control_traffic_share) (num_variants : ℚ) with
        | .error e => .error e
        | .ok variant_share =>
          match pyDiv variant_share control_traffic_share with
          | .error e => .error e
          | .ok rr =>
            match effectSizeOf L sm_type sm_control mde_absolute std_dev_control with
            | .error e => .error e
            | .ok effect_size =>
              match L.solve_nobs_two_indep effect_size adjusted_alpha power rr with
              | .error e => .error e
              | .ok n_control =>
                .ok ⟨⌈n_control⌉, ⌈n_control * rr⌉⟩

/-- The dictionary returned by `analyze_results` on success. -/
structure AnalysisResult where
  is_significant : ℕ
  p_value : NpFloat
  observed_diff : NpFloat
deriving DecidableEq

/-- The result dictionary construction of engine lines 102 to 106:
significance is decided on the unrounded p value, then p value and observed
difference are rounded to four decimals for presentation. -/
def mkResult (p_val diff : NpFloat) (alpha : ℚ) : AnalysisResult :=
  { is_significant := if NpFloat.lt p_val (.fin alpha) then 1 else 0
    p_value := NpFloat.round4 p_val
    observed_diff := NpFloat.round4 diff }

/-- The body of the `try` block of `analyze_results`, engine lines 84 to 106,
with every raising operation explicit: dictionary accesses in source
evaluation order, then the library test call, then (for `cr`) the two Python
divisions of the observed difference.  When the metric type matches neither
branch, the `return` statement reads the unbound local `p_val`, which raises
NameError. -/
def analyzeBody (L : StatsLib) (sm_type : String) (alpha : ℚ) (kw : Kwargs) :
    Except PyErr AnalysisResult :=
  if sm_type = crTag then
    match kw.get ("variant_conv") with
    | .error e => .error e
    | .ok vc =>
      match kw.get ("control_conv") with
      | .error e => .error e
      | .ok cc =>
        match kw.get ("variant_n") with
        | .error e => .error e
        | .ok vn =>
          match kw.get ("control_n") with
          | .error e => .error e
          | .ok cn =>
            match L.proportions_ztest vc cc vn cn with
            | .error e => .error e
            | .ok sp =>
              match pyDiv vc vn with
              | .error e => .error e
              | .ok d1 =>
                match pyDiv cc cn with
                | .error e => .error e
                | .ok d2 => .ok (mkResult sp.2 (.fin (d1 - d2)) alpha)
  else if sm_type = epcTag then
    match kw.get ("v_mean") with
    | .error e => .error e
    | .ok vm =>
      match kw.get ("v_std") with
      | .error e => .error e
      | .ok vs =>
        match kw.get ("v_n") with
        | .error e => .error e
        | .ok vn =>
          match kw.get ("c_mean") with
          | .error e => .error e
          | .ok cm =>
            match kw.get ("c_std") with
            | .error e => .error e
            | .ok cs =>
              match kw.get ("c_n") with
              | .error e => .error e
              | .ok cn =>
                match L.ttest_ind_from_stats vm vs vn cm cs cn with
                | .error e => .error e
                | .ok sp => .ok (mkResult sp.2 (.fin (vm - cm)) alpha)
  else .error .nameError

/-- The unrounded p value that the body of `analyze_results` obtains from the
library call for a given request, before any rounding is applied. -/
def rawPval (L : StatsLib) (sm_type : String) (kw : Kwargs) :
    Except PyErr NpFloat :=
  if sm_type = crTag then
    match kw.get ("variant_conv") with
    | .error e => .error e
    | .ok vc =>
      match kw.get ("control_conv") with
      | .error e => .error e
      | .ok cc =>
        match kw.get ("variant_n") with
        | .error e => .error e
        | .ok vn =>
          match kw.get ("control_n") with
          | .error e => .error e
          | .ok cn =>
            match L.proportions_ztest vc cc vn cn with
            | .error e => .error e
            | .ok sp => .ok sp.2
  else if sm_type = epcTag then
    match kw.get ("v_mean") with
    | .error e => .error e
    | .ok vm =>
      match kw.get ("v_std") with
      | .error e => .error e
      | .ok vs =>
        match kw.get ("v_n") with
        | .error e => .error e
        | .ok vn =>
          match kw.get ("c_mean") with
          | .error e => .error e
          | .ok cm =>
            match kw.get ("c_std") with
            | .error e => .error e
            | .ok cs =>
              match kw.get ("c_n") with
              | .error e => .error e
              | .ok cn =>
                match L.ttest_ind_from_stats vm vs vn cm cs cn with
                | .error e => .error e
                | .ok sp => .ok sp.2
  else .error .nameError

/-- `ExperimentEngine.analyze_results`, engine lines 74 to 109: the whole body
runs inside `try`, and `except Exception` turns any raised exception into the
logged failure value `None`. -/
def analyze_results (L : StatsLib) (sm_type : String) (alpha : ℚ) (kw : Kwargs) :
    Option AnalysisResult :=
  match analyzeBody L sm_type alpha kw with
  | .ok r => some r
  | .error _ => none

/-- Source message used by the toy library for the zero effect size rejection
of `Power.solve_power` in statsmodels. -/
def msgZeroEffect : String := "Cannot detect an effect-size of 0"

/-- A small concrete instance of the library interface, used to evaluate the
engine on closed inputs.  Its nobs solver is `25 / es^2` for positive effect
sizes (the shape of the true normal power solution, a constant over the
squared effect size), rejects a zero effect size like statsmodels does, and
returns the meaningless value `-3` for negative effect sizes, which the
interface leaves unconstrained because statsmodels only produces an
unconverged fallback value there. -/
def toyLib : StatsLib where
  proportions_ztest := fun _ _ _ _ => .ok (.fin 0, .fin (1/100))
  ttest_ind_from_stats := fun vm vs _ cm cs _ =>
    if vs = 0 ∧ cs = 0 ∧ vm = cm then .ok (.nan, .nan)
    else .ok (.fin 0, .fin (1/2))
  proportion_effectsize := fun p1 p2 => .ok (p1 - p2)
  solve_nobs_two_indep := fun es _ _ _ =>
    if es = 0 then .error (.valueError msgZeroEffect)
    else if 0 < es then .ok (25 / (es * es))
    else .ok (-3)

theorem toyLib_spec : toyLib.Spec := by
  constructor
  · intro cv cc nv nc
    exact ⟨.fin 0, .fin (1/100), rfl⟩
  · intro vm vn cm cn hm _ _
    simp [toyLib, hm]
  · intro p1 _ _
    simp [toyLib]
  · intro p1 p2 _ h _
    exact ⟨p1 - p2, rfl, by linarith⟩
  · intro a pw rr
    exact ⟨msgZeroEffect, by simp [toyLib]⟩
  · intro es a pw rr hes _ _ _ _ _
    refine ⟨25 / (es * es), ?_, ?_⟩
    · simp [toyLib, ne_of_gt hes, hes]
    · positivity
  · intro es1 es2 a pw rr n1 n2 h1 h12 hs1 hs2
    have h2 : 0 < es2 := lt_of_lt_of_le h1 h12
    simp [toyLib, ne_of_gt h1, ne_of_gt h2, h1, h2] at hs1 hs2
    rw [← hs1, ← hs2]
    gcongr

/-! Helper lemmas: small evaluation rules for the building blocks of the two
engine functions, used both for the symbolic theorems and for closed runs. -/

lemma epc_ne_cr : ¬ (epcTag = crTag) := by
  simp [epcTag, crTag]

lemma pyDiv_ok (a b : ℚ) (h : b ≠ 0) : pyDiv a b = .ok (a / b) := by
  simp [pyDiv, h]

lemma pyDiv_zero (a : ℚ) : pyDiv a 0 = .error .zeroDivisionError := by
  simp [pyDiv]

lemma resolveMde_some (t : String) (m : ℚ) : resolveMde t (some m) = .ok m := rfl

lemma resolveMde_cr_none : resolveMde crTag none = .ok (1/20) := by
  simp [resolveMde]

lemma resolveMde_epc_none : resolveMde epcTag none = .ok (1/10) := by
  rw [resolveMde]
  rw [if_neg epc_ne_cr, if_pos rfl]

lemma effectSizeOf_cr (L : StatsLib) (c m : ℚ) (std : Option ℚ) :
    effectSizeOf L crTag c m std = L.proportion_effectsize c (c + m) := by
  simp [effectSizeOf]

lemma effectSizeOf_epc_falsy (L : StatsLib) (c m : ℚ) (std : Option ℚ)
    (h : pyFalsy std = true) :
    effectSizeOf L epcTag c m std = .error (.valueError msgStdRequired) := by
  rw [effectSizeOf, if_neg epc_ne_cr, if_pos rfl, if_pos h]

lemma effectSizeOf_epc_val (L : StatsLib) (c m σ : ℚ) (hσ : σ ≠ 0) :
    effectSizeOf L epcTag c m (some σ) = .ok (m / σ) := by
  rw [effectSizeOf, if_neg epc_ne_cr, if_pos rfl, if_neg (by simp [pyFalsy, hσ])]
  simp [pyDiv_ok m σ hσ]

lemma calculate_sample_size_invalid (L : StatsLib) (t : String) (c : ℚ)
    (std mde : Option ℚ) (pw a s : ℚ) (k : ℤ)
    (hval : ¬ (0 < pw ∧ pw < 1 ∧ 0 < a ∧ a < 1)) :
    calculate_sample_size L t c std mde pw a s k =
      .error (.valueError msgPowerAlpha) := by
  simp [calculate_sample_size, hval]

lemma calculate_sample_size_ok (L : StatsLib) (t : String) (c : ℚ)
    (std mde : Option ℚ) (pw a s : ℚ) (k : ℤ) (adj m vsh rr es n : ℚ)
    (hval : 0 < pw ∧ pw < 1 ∧ 0 < a ∧ a < 1)
    (hadj : pyDiv a (k : ℚ) = .ok adj)
    (hm : resolveMde t mde = .ok m)
    (hvsh : pyDiv (1 - s) (k : ℚ) = .ok vsh)
    (hrr : pyDiv vsh s = .ok rr)
    (hes : effectSizeOf L t c (c * m) std = .ok es)
    (hn : L.solve_nobs_two_indep es adj pw rr = .ok n) :
    calculate_sample_size L t c std mde pw a s k = .ok ⟨⌈n⌉, ⌈n * rr⌉⟩ := by
  simp only [calculate_sample_size, if_neg (not_not_intro hval),
    hadj, hm, hvsh, hrr, hes, hn]

lemma calculate_sample_size_es_err (L : StatsLib) (t : String) (c : ℚ)
    (std mde : Option ℚ) (pw a s : ℚ) (k : ℤ) (adj m vsh rr : ℚ) (e : PyErr)
    (hval : 0 < pw ∧ pw < 1 ∧ 0 < a ∧ a < 1)
    (hadj : pyDiv a (k : ℚ) = .ok adj)
    (hm : resolveMde t mde = .ok m)
    (hvsh : pyDiv (1 - s) (k : ℚ) = .ok vsh)
    (hrr : pyDiv vsh s = .ok rr)
    (hes : effectSizeOf L t c (c * m) std = .error e) :
    calculate_sample_size L t c std mde pw a s k = .error e := by
  simp only [calculate_sample_size, if_neg (not_not_intro hval),
    hadj, hm, hvsh, hrr, hes]

lemma calculate_sample_size_solve_err (L : StatsLib) (t : String) (c : ℚ)
    (std mde : Option ℚ) (pw a s : ℚ) (k : ℤ) (adj m vsh rr es : ℚ) (e : PyErr)
    (hval : 0 < pw ∧ pw < 1 ∧ 0 < a ∧ a < 1)
    (hadj : pyDiv a (k : ℚ) = .ok adj)
    (hm : resolveMde t mde = .ok m)
    (hvsh : pyDiv (1 - s) (k : ℚ) = .ok vsh)
    (hrr : pyDiv vsh s = .ok rr)
    (hes : effectSizeOf L t c (c * m) std = .ok es)
    (hn : L.solve_nobs_two_indep es adj pw rr = .error e) :
    calculate_sample_size L t c std mde pw a s k = .error e := by
  simp only [calculate_sample_size, if_neg (not_not_intro hval),
    hadj, hm, hvsh, hrr, hes, hn]

lemma calculate_sample_size_epc_inv (L : StatsLib) (c σ m pw a s : ℚ) (k : ℤ)
    (r : SampleSizeResult)
    (hσ : σ ≠ 0) (hk0 : (k : ℚ) ≠ 0) (hs : s ≠ 0)
    (h : calculate_sample_size L epcTag c (some σ) (some m) pw a s k = .ok r) :
    ∃ n, L.solve_nobs_two_indep ((c * m) / σ) (a / (k : ℚ)) pw (ratioOf s k) = .ok n ∧
      r = ⟨⌈n⌉, ⌈n * ratioOf s k⌉⟩ := by
  by_cases hval : 0 < pw ∧ pw < 1 ∧ 0 < a ∧ a < 1
  · have hadj := pyDiv_ok a (k : ℚ) hk0
    have hvsh := pyDiv_ok (1 - s) (k : ℚ) hk0
    have hrr : pyDiv ((1 - s) / (k : ℚ)) s = .ok (ratioOf s k) := by
      rw [pyDiv_ok _ _ hs, ratioOf]
    have hes := effectSizeOf_epc_val L c (c * m) σ hσ
    simp only [calculate_sample_size, if_neg (not_not_intro hval),
      hadj, resolveMde_some, hvsh, hrr, hes] at h
    cases hn : L.solve_nobs_two_indep ((c * m) / σ) (a / (k : ℚ)) pw (ratioOf s k) with
    | error e => simp [hn] at h
    | ok n =>
      simp only [hn] at h
      injection h with h
      exact ⟨n, rfl, h.symm⟩
  · rw [calculate_sample_size_invalid L epcTag c (some σ) (some m) pw a s k hval] at h
    exact absurd h (by simp)

lemma analyzeBody_cr (L : StatsLib) (a : ℚ) (kw : Kwargs)
    (vc cc vn cn : ℚ) (st p : NpFloat) (d1q d2q : ℚ)
    (h1 : Kwargs.get kw ("variant_conv") = .ok vc)
    (h2 : Kwargs.get kw ("control_conv") = .ok cc)
    (h3 : Kwargs.get kw ("variant_n") = .ok vn)
    (h4 : Kwargs.get kw ("control_n") = .ok cn)
    (hpz : L.proportions_ztest vc cc vn cn = .ok (st, p))
    (hd1 : pyDiv vc vn = .ok d1q)
    (hd2 : pyDiv cc cn = .ok d2q) :
    analyzeBody L crTag a kw = .ok (mkResult p (.fin (d1q - d2q)) a) := by
  simp only [analyzeBody, if_pos rfl, if_true, h1, h2, h3, h4, hpz, hd1, hd2]

lemma analyzeBody_cr_d1err (L : StatsLib) (a : ℚ) (kw : Kwargs)
    (vc cc vn cn : ℚ) (st p : NpFloat) (e : PyErr)
    (h1 : Kwargs.get kw ("variant_conv") = .ok vc)
    (h2 : Kwargs.get kw ("control_conv") = .ok cc)
    (h3 : Kwargs.get kw ("variant_n") = .ok vn)
    (h4 : Kwargs.get kw ("control_n") = .ok cn)
    (hpz : L.proportions_ztest vc cc vn cn = .ok (st, p))
    (hd1 : pyDiv vc vn = .error e) :
    analyzeBody L crTag a kw = .error e := by
  simp only [analyzeBody, if_pos rfl, if_true, h1, h2, h3, h4, hpz, hd1]

lemma analyzeBody_epc (L : StatsLib) (a : ℚ) (kw : Kwargs)
    (vm vsd vn cm csd cn : ℚ) (st p : NpFloat)
    (h1 : Kwargs.get kw ("v_mean") = .ok vm)
    (h2 : Kwargs.get kw ("v_std") = .ok vsd)
    (h3 : Kwargs.get kw ("v_n") = .ok vn)
    (h4 : Kwargs.get kw ("c_mean") = .ok cm)
    (h5 : Kwargs.get kw ("c_std") = .ok csd)
    (h6 : Kwargs.get kw ("c_n") = .ok cn)
    (htt : L.ttest_ind_from_stats vm vsd vn cm csd cn = .ok (st, p)) :
    analyzeBody L epcTag a kw = .ok (mkResult p (.fin (vm - cm)) a) := by
  simp only [analyzeBody, if_neg epc_ne_cr, if_pos rfl, if_true, h1, h2, h3, h4, h5, h6, htt]

lemma analyze_results_of_ok (L : StatsLib) (t : String) (a : ℚ) (kw : Kwargs)
    (r : AnalysisResult) (h : analyzeBody L t a kw = .ok r) :
    analyze_results L t a kw = some r := by
  simp [analyze_results, h]

lemma analyze_results_of_err (L : StatsLib) (t : String) (a : ℚ) (kw : Kwargs)
    (e : PyErr) (h : analyzeBody L t a kw = .error e) :
    analyze_results L t a kw = none := by
  simp [analyze_results, h]

lemma analyzeBody_ok_pval (L : StatsLib) (t : String) (a : ℚ) (kw : Kwargs)
    (r : AnalysisResult) (h : analyzeBody L t a kw = .ok r) :
    ∃ p, rawPval L t kw = .ok p ∧ ∃ d, r = mkResult p d a := by
  by_cases hcr : t = crTag
  · subst hcr
    simp only [analyzeBody, if_pos rfl] at h
    simp only [rawPval, if_pos rfl]
    cases h1 : Kwargs.get kw ("variant_conv") with
    | error e => simp [h1] at h
    | ok vc =>
    simp only [h1] at h ⊢
    cases h2 : Kwargs.get kw ("control_conv") with
    | error e => simp [h2] at h
    | ok cc =>
    simp only [h2] at h ⊢
    cases h3 : Kwargs.get kw ("variant_n") with
    | error e => simp [h3] at h
    | ok vn =>
    simp only [h3] at h ⊢
    cases h4 : Kwargs.get kw ("control_n") with
    | error e => simp [h4] at h
    | ok cn =>
    simp only [h4] at h ⊢
    cases hpz : L.proportions_ztest vc cc vn cn with
    | error e => simp [hpz] at h
    | ok sp =>
    simp only [hpz] at h ⊢
    cases hd1 : pyDiv vc vn with
    | error e => simp [hd1] at h
    | ok d1 =>
    simp only [hd1] at h
    cases hd2 : pyDiv cc cn with
    | error e => simp [hd2] at h
    | ok d2 =>
    simp only [hd2] at h
    injection h with h
    exact ⟨sp.2, rfl, .fin (d1 - d2), h.symm⟩
  · by_cases hepc : t = epcTag
    · subst hepc
      simp only [analyzeBody, if_neg epc_ne_cr, if_pos rfl] at h
      simp only [rawPval, if_neg epc_ne_cr, if_pos rfl]
      cases h1 : Kwargs.get kw ("v_mean") with
      | error e => simp [h1] at h
      | ok vm =>
      simp only [h1] at h ⊢
      cases h2 : Kwargs.get kw ("v_std") with
      | error e => simp [h2] at h
      | ok vsd =>
      simp only [h2] at h ⊢
      cases h3 : Kwargs.get kw ("v_n") with
      | error e => simp [h3] at h
      | ok vn =>
      simp only [h3] at h ⊢
      cases h4 : Kwargs.get kw ("c_mean") with
      | error e => simp [h4] at h
      | ok cm =>
      simp only [h4] at h ⊢
      cases h5 : Kwargs.get kw ("c_std") with
      | error e => simp [h5] at h
      | ok csd =>
      simp only [h5] at h ⊢
      cases h6 : Kwargs.get kw ("c_n") with
      | error e => simp [h6] at h
      | ok cn =>
      simp only [h6] at h ⊢
      cases htt : L.ttest_ind_from_stats vm vsd vn cm csd cn with
      | error e => simp [htt] at h
      | ok sp =>
      simp only [htt] at h ⊢
      injection h with h
      exact ⟨sp.2, rfl, .fin (vm - cm), h.symm⟩
    · simp only [analyzeBody, if_neg hcr, if_neg hepc] at h
      exact absurd h (by simp)

/-! The claims.  Each claim of the specification gets exactly one theorem, plus
a closed witness when the theorem carries hypotheses, and a closed
counterexample where the original claim fails on the code. -/

/-- C6: for every sample size request with power or alpha outside the open
interval (0,1) (in particular equal to 0 or 1), `calculate_sample_size` fails
with the InvalidParameter error of the validation on engine lines 34 and 35,
whatever the metric type and the remaining parameters are. -/
theorem C6_power_alpha_validation (L : StatsLib) (t : String) (c : ℚ)
    (std mde : Option ℚ) (pw a s : ℚ) (k : ℤ)
    (h : pw ≤ 0 ∨ 1 ≤ pw ∨ a ≤ 0 ∨ 1 ≤ a) :
    calculate_sample_size L t c std mde pw a s k =
      .error (.valueError msgPowerAlpha) := by
  apply calculate_sample_size_invalid
  rintro ⟨h1, h2, h3, h4⟩
  rcases h with h | h | h | h <;> linarith

/-- Witness for C6 at power exactly 1. -/
theorem C6_power_alpha_validation_witness :
    ((1:ℚ) ≤ 0 ∨ (1:ℚ) ≤ 1 ∨ (1/20 : ℚ) ≤ 0 ∨ (1:ℚ) ≤ 1/20) ∧
    calculate_sample_size toyLib crTag (1/50) none none 1 (1/20) (4/5) 1 =
      .error (.valueError msgPowerAlpha) :=
  ⟨Or.inr (Or.inl le_rfl),
    C6_power_alpha_validation toyLib crTag (1/50) none none 1 (1/20) (4/5) 1
      (Or.inr (Or.inl le_rfl))⟩

/-- C7: for every EPC sample size request without a control standard deviation
(`None`), `calculate_sample_size` fails with a ValueError: either the up front
power and alpha validation, or the missing standard deviation check of engine
lines 58 and 59.  The data model bounds `num_variants ≥ 1` and a nonzero
traffic share keep the two Python divisions before the check from raising. -/
theorem C7_epc_missing_std (L : StatsLib) (c : ℚ) (mde : Option ℚ)
    (pw a s : ℚ) (k : ℤ) (hk : 1 ≤ k) (hs : s ≠ 0) :
    ∃ msg, calculate_sample_size L epcTag c none mde pw a s k =
      .error (.valueError msg) := by
  by_cases hval : 0 < pw ∧ pw < 1 ∧ 0 < a ∧ a < 1
  · have hkq : (0:ℚ) < (k : ℚ) := by exact_mod_cast lt_of_lt_of_le Int.zero_lt_one hk
    have hk0 : (k : ℚ) ≠ 0 := ne_of_gt hkq
    refine ⟨msgStdRequired, ?_⟩
    cases mde with
    | some m =>
      exact calculate_sample_size_es_err L epcTag c none (some m) pw a s k
        (a / (k : ℚ)) m ((1 - s) / (k : ℚ)) (((1 - s) / (k : ℚ)) / s)
        (.valueError msgStdRequired) hval
        (pyDiv_ok a (k : ℚ) hk0) (resolveMde_some epcTag m)
        (pyDiv_ok (1 - s) (k : ℚ) hk0) (pyDiv_ok ((1 - s) / (k : ℚ)) s hs)
        (effectSizeOf_epc_falsy L c (c * m) none rfl)
    | none =>
      exact calculate_sample_size_es_err L epcTag c none none pw a s k
        (a / (k : ℚ)) (1/10) ((1 - s) / (k : ℚ)) (((1 - s) / (k : ℚ)) / s)
        (.valueError msgStdRequired) hval
        (pyDiv_ok a (k : ℚ) hk0) resolveMde_epc_none
        (pyDiv_ok (1 - s) (k : ℚ) hk0) (pyDiv_ok ((1 - s) / (k : ℚ)) s hs)
        (effectSizeOf_epc_falsy L c (c * (1/10)) none rfl)
  · exact ⟨msgPowerAlpha,
      calculate_sample_size_invalid L epcTag c none mde pw a s k hval⟩

/-- Witness for C7 at a concrete EPC request without standard deviation. -/
theorem C7_epc_missing_std_witness :
    (1:ℤ) ≤ 1 ∧ ((4:ℚ)/5) ≠ 0 ∧
    (∃ msg, calculate_sample_size toyLib epcTag (5/2) none none (4/5) (1/20) (4/5) 1 =
      .error (.valueError msg)) :=
  ⟨le_rfl, by norm_num,
    C7_epc_missing_std toyLib (5/2) none (4/5) (1/20) (4/5) 1 le_rfl (by norm_num)⟩

/-- C10: an EPC request with control standard deviation equal to 0 follows the
same path as one with no standard deviation at all: the Python falsy test
`if not std_dev_control` on engine line 58 treats both alike, so both fail
with the identical missing standard deviation ValueError and the division by
the standard deviation is never reached. -/
theorem C10_zero_std_is_missing (L : StatsLib) (c : ℚ) (mde : Option ℚ)
    (pw a s : ℚ) (k : ℤ) (hk : 1 ≤ k) (hs : s ≠ 0)
    (hval : 0 < pw ∧ pw < 1 ∧ 0 < a ∧ a < 1) :
    calculate_sample_size L epcTag c (some 0) mde pw a s k =
      .error (.valueError msgStdRequired) ∧
    calculate_sample_size L epcTag c none mde pw a s k =
      .error (.valueError msgStdRequired) := by
  have hkq : (0:ℚ) < (k : ℚ) := by exact_mod_cast lt_of_lt_of_le Int.zero_lt_one hk
  have hk0 : (k : ℚ) ≠ 0 := ne_of_gt hkq
  have key : ∀ std : Option ℚ, pyFalsy std = true →
      calculate_sample_size L epcTag c std mde pw a s k =
        .error (.valueError msgStdRequired) := by
    intro std hstd
    cases mde with
    | some m =>
      exact calculate_sample_size_es_err L epcTag c std (some m) pw a s k
        (a / (k : ℚ)) m ((1 - s) / (k : ℚ)) (((1 - s) / (k : ℚ)) / s)
        (.valueError msgStdRequired) hval
        (pyDiv_ok a (k : ℚ) hk0) (resolveMde_some epcTag m)
        (pyDiv_ok (1 - s) (k : ℚ) hk0) (pyDiv_ok ((1 - s) / (k : ℚ)) s hs)
        (effectSizeOf_epc_falsy L c (c * m) std hstd)
    | none =>
      exact calculate_sample_size_es_err L epcTag c std none pw a s k
        (a / (k : ℚ)) (1/10) ((1 - s) / (k : ℚ)) (((1 - s) / (k : ℚ)) / s)
        (.valueError msgStdRequired) hval
        (pyDiv_ok a (k : ℚ) hk0) resolveMde_epc_none
        (pyDiv_ok (1 - s) (k : ℚ) hk0) (pyDiv_ok ((1 - s) / (k : ℚ)) s hs)
        (effectSizeOf_epc_falsy L c (c * (1/10)) std hstd)
  exact ⟨key (some 0) (by simp [pyFalsy]), key none rfl⟩

/-- Witness for C10 at a concrete EPC request with a zero standard deviation. -/
theorem C10_zero_std_is_missing_witness :
    (1:ℤ) ≤ 1 ∧ ((4:ℚ)/5) ≠ 0 ∧
    ((0:ℚ) < 4/5 ∧ (4:ℚ)/5 < 1 ∧ (0:ℚ) < 1/20 ∧ (1:ℚ)/20 < 1) ∧
    (calculate_sample_size toyLib epcTag (5/2) (some 0) none (4/5) (1/20) (4/5) 1 =
      .error (.valueError msgStdRequired) ∧
    calculate_sample_size toyLib epcTag (5/2) none none (4/5) (1/20) (4/5) 1 =
      .error (.valueError msgStdRequired)) :=
  ⟨le_rfl, by norm_num, by norm_num,
    C10_zero_std_is_missing toyLib (5/2) none (4/5) (1/20) (4/5) 1 le_rfl
      (by norm_num) (by norm_num)⟩

/-- C2 counterexample: the engine performs no validation of a provided relative
MDE.  With the explicitly negative relative MDE -0.1 on a CR request, the
effect size handed to the solver is `proportion_effectsize(0.5, 0.45)`, which
is positive (the arcsine transform of a DECREASE), the power solver therefore
succeeds, and `calculate_sample_size` returns a normal result instead of
failing with InvalidParameter. -/
theorem C2_counterexample :
    calculate_sample_size toyLib crTag (1/2) none (some (-1/10)) (4/5) (1/20) (4/5) 1 =
      .ok ⟨10000, 2500⟩ := by
  norm_num [calculate_sample_size, resolveMde, effectSizeOf, toyLib, pyDiv, pyFalsy,
    crTag, epcTag, Int.ceil_eq_iff]

/-- C2 (amended): when the relative MDE resolves to exactly 0, the absolute
MDE and hence the effect size are 0 for both metric types, and the power
solver itself rejects a zero effect size with a ValueError, so
`calculate_sample_size` does fail; the engine contributes no MDE validation of
its own (both metric defaults are positive, so the default path never yields
a nonpositive MDE). -/
theorem C2_zero_mde_fails (L : StatsLib) (hL : L.Spec) (c σ pw a s : ℚ) (k : ℤ)
    (hval : 0 < pw ∧ pw < 1 ∧ 0 < a ∧ a < 1) (hk : 1 ≤ k) (hs : s ≠ 0)
    (hc0 : 0 < c) (hc1 : c < 1) (hσ : σ ≠ 0) :
    (∃ msg, calculate_sample_size L crTag c none (some 0) pw a s k =
      .error (.valueError msg)) ∧
    (∃ msg, calculate_sample_size L epcTag c (some σ) (some 0) pw a s k =
      .error (.valueError msg)) := by
  have hkq : (0:ℚ) < (k : ℚ) := by exact_mod_cast lt_of_lt_of_le Int.zero_lt_one hk
  have hk0 : (k : ℚ) ≠ 0 := ne_of_gt hkq
  obtain ⟨msg1, hsolve1⟩ :=
    hL.solve_zero_effect (a / (k : ℚ)) pw (((1 - s) / (k : ℚ)) / s)
  constructor
  · refine ⟨msg1, calculate_sample_size_solve_err L crTag c none (some 0) pw a s k
      (a / (k : ℚ)) 0 ((1 - s) / (k : ℚ)) (((1 - s) / (k : ℚ)) / s) 0
      (.valueError msg1) hval
      (pyDiv_ok a (k : ℚ) hk0) (resolveMde_some crTag 0)
      (pyDiv_ok (1 - s) (k : ℚ) hk0) (pyDiv_ok ((1 - s) / (k : ℚ)) s hs)
      ?_ hsolve1⟩
    rw [effectSizeOf_cr, mul_zero, add_zero]
    exact hL.pes_eq_zero c hc0 hc1
  · refine ⟨msg1, calculate_sample_size_solve_err L epcTag c (some σ) (some 0) pw a s k
      (a / (k : ℚ)) 0 ((1 - s) / (k : ℚ)) (((1 - s) / (k : ℚ)) / s) 0
      (.valueError msg1) hval
      (pyDiv_ok a (k : ℚ) hk0) (resolveMde_some epcTag 0)
      (pyDiv_ok (1 - s) (k : ℚ) hk0) (pyDiv_ok ((1 - s) / (k : ℚ)) s hs)
      ?_ hsolve1⟩
    rw [mul_zero]
    simpa using effectSizeOf_epc_val L c 0 σ hσ

/-- Witness for the amended C2 at a concrete request with relative MDE 0. -/
theorem C2_zero_mde_fails_witness :
    ((0:ℚ) < 4/5 ∧ (4:ℚ)/5 < 1 ∧ (0:ℚ) < 1/20 ∧ (1:ℚ)/20 < 1) ∧
    ((∃ msg, calculate_sample_size toyLib crTag (1/2) none (some 0) (4/5) (1/20) (4/5) 1 =
      .error (.valueError msg)) ∧
    (∃ msg, calculate_sample_size toyLib epcTag (1/2) (some 3) (some 0) (4/5) (1/20) (4/5) 1 =
      .error (.valueError msg))) :=
  ⟨by norm_num,
    C2_zero_mde_fails toyLib toyLib_spec (1/2) 3 (4/5) (1/20) (4/5) 1
      (by norm_num) le_rfl (by norm_num) (by norm_num) (by norm_num) (by norm_num)⟩

/-- C5 counterexample: on the CR planning path the source computes
`proportion_effectsize(control, control + mde_absolute)`, which is negative
for a positive MDE, and hands it to a one sided (larger) power solver whose
guaranteed regime is positive effect sizes only; with a library instance that
satisfies every interface fact of `StatsLib.Spec`, the default CR request of
the repository test suite returns non positive sizes, so the code does not
ensure the claimed positivity. -/
theorem C5_counterexample :
    calculate_sample_size toyLib crTag (1/50) none none (4/5) (1/20) (4/5) 1 =
      .ok ⟨-3, 0⟩ := by
  norm_num [calculate_sample_size, resolveMde, effectSizeOf, toyLib, pyDiv, pyFalsy,
    crTag, epcTag, Int.ceil_eq_iff]

/-- C5 (amended): for every valid EPC sample size request (positive baseline,
standard deviation and MDE, power and alpha inside (0,1), at least one
variant, control share strictly inside (0,1)), `calculate_sample_size`
returns the two ceilings of the continuous solver output, both strictly
positive, and the per variant size equals the control size times the traffic
ratio to within strictly less than one ceiling step. -/
theorem C5_epc_sizes (L : StatsLib) (hL : L.Spec) (c σ m pw a s : ℚ) (k : ℤ)
    (hc : 0 < c) (hσ : 0 < σ) (hm : 0 < m) (hpw0 : 0 < pw) (hpw1 : pw < 1)
    (ha0 : 0 < a) (ha1 : a < 1) (hk : 1 ≤ k) (hs0 : 0 < s) (hs1 : s < 1) :
    ∃ n : ℚ, 0 < n ∧
      calculate_sample_size L epcTag c (some σ) (some m) pw a s k =
        .ok ⟨⌈n⌉, ⌈n * ratioOf s k⌉⟩ ∧
      0 < ⌈n⌉ ∧ 0 < ⌈n * ratioOf s k⌉ ∧
      (⌈n⌉ : ℚ) * ratioOf s k - ratioOf s k < (⌈n * ratioOf s k⌉ : ℚ) ∧
      (⌈n * ratioOf s k⌉ : ℚ) < (⌈n⌉ : ℚ) * ratioOf s k + 1 := by
  have hkq : (0:ℚ) < (k : ℚ) := by exact_mod_cast lt_of_lt_of_le Int.zero_lt_one hk
  have hk0 : (k : ℚ) ≠ 0 := ne_of_gt hkq
  have hs : s ≠ 0 := ne_of_gt hs0
  have h1s : 0 < 1 - s := by linarith
  have hrop : 0 < ratioOf s k := by
    rw [ratioOf]
    positivity
  have hes : 0 < (c * m) / σ := by positivity
  have hadj0 : 0 < a / (k : ℚ) := by positivity
  have hadj1 : a / (k : ℚ) < 1 :=
    lt_of_le_of_lt (div_le_self (le_of_lt ha0) (by exact_mod_cast hk)) ha1
  obtain ⟨n, hsolve, hn⟩ := hL.solve_pos ((c * m) / σ) (a / (k : ℚ)) pw (ratioOf s k)
    hes hadj0 hadj1 hpw0 hpw1 hrop
  have hplan : calculate_sample_size L epcTag c (some σ) (some m) pw a s k =
      .ok ⟨⌈n⌉, ⌈n * ratioOf s k⌉⟩ := by
    apply calculate_sample_size_ok L epcTag c (some σ) (some m) pw a s k
      (a / (k : ℚ)) m ((1 - s) / (k : ℚ)) (ratioOf s k) ((c * m) / σ) n
      ⟨hpw0, hpw1, ha0, ha1⟩ (pyDiv_ok a (k : ℚ) hk0) (resolveMde_some epcTag m)
      (pyDiv_ok (1 - s) (k : ℚ) hk0) ?_
      (effectSizeOf_epc_val L c (c * m) σ (ne_of_gt hσ)) hsolve
    rw [pyDiv_ok ((1 - s) / (k : ℚ)) s hs, ratioOf]
  have hceil1 : (0:ℤ) < ⌈n⌉ := Int.ceil_pos.mpr hn
  have hnr : 0 < n * ratioOf s k := mul_pos hn hrop
  have hceil2 : (0:ℤ) < ⌈n * ratioOf s k⌉ := Int.ceil_pos.mpr hnr
  have h2 : n ≤ (⌈n⌉ : ℚ) := Int.le_ceil n
  have hub : (⌈n * ratioOf s k⌉ : ℚ) < (⌈n⌉ : ℚ) * ratioOf s k + 1 := by
    have h4 := Int.ceil_lt_add_one (n * ratioOf s k)
    have h5 := mul_le_mul_of_nonneg_right h2 (le_of_lt hrop)
    linarith
  have hlb : (⌈n⌉ : ℚ) * ratioOf s k - ratioOf s k < (⌈n * ratioOf s k⌉ : ℚ) := by
    have h1 := Int.ceil_lt_add_one n
    have h3 : n * ratioOf s k ≤ (⌈n * ratioOf s k⌉ : ℚ) := Int.le_ceil _
    have h6 := mul_lt_mul_of_pos_right (show (⌈n⌉ : ℚ) - 1 < n by linarith) hrop
    rw [sub_mul, one_mul] at h6
    linarith
  exact ⟨n, hn, hplan, hceil1, hceil2, hlb, hub⟩

/-- Witness for the amended C5 at a concrete valid EPC request. -/
theorem C5_epc_sizes_witness :
    ∃ n : ℚ, 0 < n ∧
      calculate_sample_size toyLib epcTag 1 (some 1) (some 1) (4/5) (1/20) (4/5) 1 =
        .ok ⟨⌈n⌉, ⌈n * ratioOf (4/5) 1⌉⟩ ∧
      0 < ⌈n⌉ ∧ 0 < ⌈n * ratioOf (4/5) 1⌉ ∧
      (⌈n⌉ : ℚ) * ratioOf (4/5) 1 - ratioOf (4/5) 1 < (⌈n * ratioOf (4/5) 1⌉ : ℚ) ∧
      (⌈n * ratioOf (4/5) 1⌉ : ℚ) < (⌈n⌉ : ℚ) * ratioOf (4/5) 1 + 1 :=
  C5_epc_sizes toyLib toyLib_spec 1 1 1 (4/5) (1/20) (4/5) 1
    (by norm_num) (by norm_num) (by norm_num) (by norm_num) (by norm_num)
    (by norm_num) (by norm_num) le_rfl (by norm_num) (by norm_num)

/-- C8 counterexample: two valid EPC requests that differ only in the relative
MDE (2.01 versus 2.014, so the first is strictly smaller) produce identical
integer results, because the ceiling rounding collapses the strictly larger
continuous solver output into the same integers; the claimed STRICT increase
fails. -/
theorem C8_counterexample :
    calculate_sample_size toyLib epcTag 1 (some 5) (some (201/100)) (4/5) (1/20) (4/5) 1 =
      .ok ⟨155, 39⟩ ∧
    calculate_sample_size toyLib epcTag 1 (some 5) (some (1007/500)) (4/5) (1/20) (4/5) 1 =
      .ok ⟨155, 39⟩ := by
  constructor
  · norm_num [calculate_sample_size, resolveMde, effectSizeOf, toyLib, pyDiv, pyFalsy,
      if_neg epc_ne_cr, Int.ceil_eq_iff]
  · norm_num [calculate_sample_size, resolveMde, effectSizeOf, toyLib, pyDiv, pyFalsy,
      if_neg epc_ne_cr, Int.ceil_eq_iff]

/-- C8 (amended): decreasing the relative MDE of a valid EPC request never
decreases either returned size (the continuous solver output is antitone in
the effect size, and the ceiling is monotone); strictness is lost exactly in
the ceiling rounding, and the CR path is outside the guaranteed regime of the
solver because its effect size is negative. -/
theorem C8_mde_weak_antitone (L : StatsLib) (hL : L.Spec) (c σ m1 m2 pw a s : ℚ)
    (k : ℤ) (r1 r2 : SampleSizeResult)
    (hc : 0 < c) (hσ : 0 < σ) (hm1 : 0 < m1) (hm12 : m1 ≤ m2)
    (hk : 1 ≤ k) (hs0 : 0 < s) (hs1 : s < 1)
    (h1 : calculate_sample_size L epcTag c (some σ) (some m1) pw a s k = .ok r1)
    (h2 : calculate_sample_size L epcTag c (some σ) (some m2) pw a s k = .ok r2) :
    r2.control_sample_size ≤ r1.control_sample_size ∧
    r2.variant_sample_size_per_variant ≤ r1.variant_sample_size_per_variant := by
  have hkq : (0:ℚ) < (k : ℚ) := by exact_mod_cast lt_of_lt_of_le Int.zero_lt_one hk
  have hk0 : (k : ℚ) ≠ 0 := ne_of_gt hkq
  have hs : s ≠ 0 := ne_of_gt hs0
  obtain ⟨n1, hsol1, hr1⟩ :=
    calculate_sample_size_epc_inv L c σ m1 pw a s k r1 (ne_of_gt hσ) hk0 hs h1
  obtain ⟨n2, hsol2, hr2⟩ :=
    calculate_sample_size_epc_inv L c σ m2 pw a s k r2 (ne_of_gt hσ) hk0 hs h2
  have hes1 : 0 < (c * m1) / σ := by positivity
  have hes12 : (c * m1) / σ ≤ (c * m2) / σ :=
    (div_le_div_iff_of_pos_right hσ).mpr (mul_le_mul_of_nonneg_left hm12 (le_of_lt hc))
  have hle := hL.solve_antitone ((c * m1) / σ) ((c * m2) / σ) (a / (k : ℚ)) pw
    (ratioOf s k) n1 n2 hes1 hes12 hsol1 hsol2
  have h1s : 0 ≤ 1 - s := by linarith
  have hrr0 : 0 ≤ ratioOf s k := by
    rw [ratioOf]
    positivity
  subst hr1
  subst hr2
  exact ⟨Int.ceil_le_ceil hle,
    Int.ceil_le_ceil (mul_le_mul_of_nonneg_right hle hrr0)⟩

/-- Witness for the amended C8: MDE 1 versus 2 on a concrete EPC request. -/
theorem C8_mde_weak_antitone_witness :
    (SampleSizeResult.mk 7 2).control_sample_size ≤
      (SampleSizeResult.mk 25 7).control_sample_size ∧
    (SampleSizeResult.mk 7 2).variant_sample_size_per_variant ≤
      (SampleSizeResult.mk 25 7).variant_sample_size_per_variant :=
  C8_mde_weak_antitone toyLib toyLib_spec 1 1 1 2 (4/5) (1/20) (4/5) 1 ⟨25, 7⟩ ⟨7, 2⟩
    (by norm_num) (by norm_num) (by norm_num) (by norm_num) le_rfl
    (by norm_num) (by norm_num)
    (by norm_num [calculate_sample_size, resolveMde, effectSizeOf, toyLib, pyDiv,
      pyFalsy, if_neg epc_ne_cr, Int.ceil_eq_iff])
    (by norm_num [calculate_sample_size, resolveMde, effectSizeOf, toyLib, pyDiv,
      pyFalsy, if_neg epc_ne_cr, Int.ceil_eq_iff])

/-- C1: at the two degenerate inputs named by the claim the code behaves
asymmetrically.  For the EPC request with both standard deviations zero and
equal means, scipy returns (NaN, NaN) without raising, so `analyze_results`
returns a NORMAL dictionary whose p value is NaN and whose verdict is the
default not significant value 0, not the failure value None; the claim holds
only for the CR request with a zero observation count, where the Python
division computing the observed difference raises ZeroDivisionError and the
except block returns None. -/
theorem C1_degenerate_inputs (L : StatsLib) (hL : L.Spec) :
    analyze_results L epcTag (1/20)
        [("v_mean", 1), ("v_std", 0), ("v_n", 10),
         ("c_mean", 1), ("c_std", 0), ("c_n", 10)] =
      some ⟨0, .nan, .fin 0⟩ ∧
    analyze_results L crTag (1/20)
        [("variant_conv", 5), ("control_conv", 3),
         ("variant_n", 0), ("control_n", 10)] =
      none := by
  constructor
  · have htt : L.ttest_ind_from_stats 1 0 10 1 0 10 = .ok (.nan, .nan) :=
      hL.tt_zerovar 1 10 1 10 rfl (by norm_num) (by norm_num)
    have hbody := analyzeBody_epc L (1/20)
      [("v_mean", 1), ("v_std", 0), ("v_n", 10), ("c_mean", 1), ("c_std", 0), ("c_n", 10)]
      1 0 10 1 0 10 .nan .nan
      (by simp [Kwargs.get, List.lookup]) (by simp [Kwargs.get, List.lookup])
      (by simp [Kwargs.get, List.lookup]) (by simp [Kwargs.get, List.lookup])
      (by simp [Kwargs.get, List.lookup]) (by simp [Kwargs.get, List.lookup]) htt
    rw [analyze_results_of_ok _ _ _ _ _ hbody]
    norm_num [mkResult, NpFloat.lt, NpFloat.round4, roundHalfEven]
  · obtain ⟨st, p, hpz⟩ := hL.pz_ok 5 3 0 10
    have hbody := analyzeBody_cr_d1err L (1/20)
      [("variant_conv", 5), ("control_conv", 3), ("variant_n", 0), ("control_n", 10)]
      5 3 0 10 st p .zeroDivisionError
      (by simp [Kwargs.get, List.lookup]) (by simp [Kwargs.get, List.lookup])
      (by simp [Kwargs.get, List.lookup]) (by simp [Kwargs.get, List.lookup])
      hpz (pyDiv_zero 5)
    exact analyze_results_of_err _ _ _ _ _ hbody

/-- Witness for C1 at the concrete library instance. -/
theorem C1_degenerate_inputs_witness :
    analyze_results toyLib epcTag (1/20)
        [("v_mean", 1), ("v_std", 0), ("v_n", 10),
         ("c_mean", 1), ("c_std", 0), ("c_n", 10)] =
      some ⟨0, .nan, .fin 0⟩ ∧
    analyze_results toyLib crTag (1/20)
        [("variant_conv", 5), ("control_conv", 3),
         ("variant_n", 0), ("control_n", 10)] =
      none :=
  C1_degenerate_inputs toyLib toyLib_spec

/-- C3: `analyze_results` is a total function whose every outcome is either a
structured success dictionary or the failure value None obtained from an
exception of the translated try block; the except clause catches every raised
exception, so no input makes the call itself fail. -/
theorem C3_analyze_never_raises (L : StatsLib) (t : String) (a : ℚ) (kw : Kwargs) :
    (∃ e, analyzeBody L t a kw = .error e ∧ analyze_results L t a kw = none) ∨
    (∃ r, analyzeBody L t a kw = .ok r ∧ analyze_results L t a kw = some r) := by
  cases h : analyzeBody L t a kw with
  | error e => exact Or.inl ⟨e, rfl, analyze_results_of_err L t a kw e h⟩
  | ok r => exact Or.inr ⟨r, rfl, analyze_results_of_ok L t a kw r h⟩

/-- C4: whenever `analyze_results` yields a result, its verdict field is 1
exactly when the UNROUNDED library p value is strictly below alpha, and the
reported p value is the four decimal rounding of that same unrounded value;
the rounding therefore never influences the verdict. -/
theorem C4_verdict_unrounded (L : StatsLib) (t : String) (a : ℚ) (kw : Kwargs)
    (r : AnalysisResult) (h : analyze_results L t a kw = some r) :
    ∃ p, rawPval L t kw = .ok p ∧
      (r.is_significant = 1 ↔ NpFloat.lt p (.fin a) = true) ∧
      r.p_value = NpFloat.round4 p := by
  cases hb : analyzeBody L t a kw with
  | error e =>
    rw [analyze_results_of_err L t a kw e hb] at h
    exact absurd h (by simp)
  | ok r0 =>
    rw [analyze_results_of_ok L t a kw r0 hb] at h
    injection h with h
    subst h
    obtain ⟨p, hp, d, hr⟩ := analyzeBody_ok_pval L t a kw r0 hb
    subst hr
    refine ⟨p, hp, ?_, rfl⟩
    by_cases hlt : NpFloat.lt p (.fin a) = true
    · simp [mkResult, hlt]
    · simp [mkResult, hlt]

/-- Witness for C4 at a concrete CR analysis that yields a result. -/
theorem C4_verdict_unrounded_witness :
    ∃ p, rawPval toyLib crTag
        [("variant_conv", 30), ("control_conv", 20),
         ("variant_n", 100), ("control_n", 100)] = .ok p ∧
      ((AnalysisResult.mk 1 (.fin (1/100)) (.fin (1/10))).is_significant = 1 ↔
        NpFloat.lt p (.fin (1/20)) = true) ∧
      (AnalysisResult.mk 1 (.fin (1/100)) (.fin (1/10))).p_value = NpFloat.round4 p :=
  C4_verdict_unrounded toyLib crTag (1/20)
    [("variant_conv", 30), ("control_conv", 20), ("variant_n", 100), ("control_n", 100)]
    ⟨1, .fin (1/100), .fin (1/10)⟩
    (by
      have hbody := analyzeBody_cr toyLib (1/20)
        [("variant_conv", 30), ("control_conv", 20), ("variant_n", 100), ("control_n", 100)]
        30 20 100 100 (.fin 0) (.fin (1/100)) (3/10) (1/5)
        (by simp [Kwargs.get, List.lookup]) (by simp [Kwargs.get, List.lookup])
        (by simp [Kwargs.get, List.lookup]) (by simp [Kwargs.get, List.lookup])
        rfl (by norm_num [pyDiv]) (by norm_num [pyDiv])
      rw [analyze_results_of_ok _ _ _ _ _ hbody]
      norm_num [mkResult, NpFloat.lt, NpFloat.round4, roundHalfEven])

/-- C9: for every metric type other than the two source literals, the body of
`analyze_results` falls through both branches and the return statement reads
the unbound local `p_val`, raising NameError, which the except clause turns
into the failure value None; no exception escapes and no result is
returned. -/
theorem C9_unknown_metric (L : StatsLib) (t : String) (a : ℚ) (kw : Kwargs)
    (h1 : ¬ t = crTag) (h2 : ¬ t = epcTag) :
    analyze_results L t a kw = none := by
  apply analyze_results_of_err L t a kw .nameError
  simp only [analyzeBody, if_neg h1, if_neg h2]

/-- Witness for C9 at the unknown metric type cpc. -/
theorem C9_unknown_metric_witness :
    (¬ (("cpc" : String) = crTag)) ∧ (¬ (("cpc" : String) = epcTag)) ∧
    analyze_results toyLib ("cpc") (1/20) [] = none :=
  ⟨by simp [crTag], by simp [epcTag],
    C9_unknown_metric toyLib ("cpc") (1/20) [] (by simp [crTag]) (by simp [epcTag])⟩
